import Mathlib

/-
Verification of the two YouTube download entry points of this repository:
download_audio (src/audio_download.py), download_video (src/video_download.py)
and the legacy module-level script src/video-download.py.

The behaviour of the wrapped libraries (pafy, pytube) and of the OS is modelled
as an environment record of functions; each library or OS call either returns a
value or raises, modelled by Except with the exception message as str(e) would
give it.  Both entry points are embedded as functions from such an environment
to the returned value or raised exception, paired with the ordered trace of
outside calls they perform, so that claims about calls never being made can be
stated.
-/

namespace DownloadFromYoutube

/-- Python exception values produced by the two entry points: the ValueError
raised by input validation, and the generic Exception used when a caught
failure is re-raised with a wrapped message. -/
inductive PyExn where
  | valueError (msg : String)
  | exception (msg : String)
deriving DecidableEq, Repr

/-- Message text carried by an exception, as str(e) would render it. -/
def PyExn.msg : PyExn → String
  | .valueError m => m
  | .exception m => m

/-- A pytube stream handle as download_video uses it: the resolution value that
order_by compares on, and the behaviour of stream.download(save_path), which
either returns the saved file path or raises with the given message. -/
structure VStream where
  resolution : Nat
  dl : String → Except String String

/-- The ordering used by order_by over the resolution attribute. -/
def vle (a b : VStream) : Prop := a.resolution ≤ b.resolution

instance : DecidableRel vle := fun a b => Nat.decLe a.resolution b.resolution

instance : IsTotal VStream vle := ⟨fun a b => Nat.le_total a.resolution b.resolution⟩

instance : IsTrans VStream vle := ⟨fun _ _ _ => Nat.le_trans⟩

/-- Embedding of order_by over the resolution attribute applied to the
progressive mp4 candidates: a stable ascending sort by resolution. -/
def orderByResolution (ss : List VStream) : List VStream :=
  List.insertionSort vle ss

/-- Python list indexing with index -1: the last element, or an IndexError
carrying the standard CPython message when the list is empty. -/
def pyLast (l : List VStream) : Except String VStream :=
  match l.getLast? with
  | some s => Except.ok s
  | none => Except.error "list index out of range"

/-- A pytube YouTube handle, as the constructor in the first try block returns
it.  Its progMp4 field is the behaviour of the later streams.filter call with
progressive and mp4 arguments, evaluated inside the second try block: it either
returns the progressive mp4 candidate list or raises with the given message. -/
structure YTHandle where
  progMp4 : Except String (List VStream)

/-- Behaviour of the outside world as seen by download_video: the pytube
YouTube constructor returning a handle, os.path.exists, and os.makedirs. -/
structure VideoEnv where
  resolve : String → Except String YTHandle
  pathExists : String → Bool
  makedirs : String → Except String Unit

/-- Observable calls download_video makes into the outside world. -/
inductive Eff where
  | resolveCall (link : String)
  | makedirsCall (path : String)
  | downloadCall (dest : String)
deriving DecidableEq, Repr

/-- Outcome of a download_video run: the returned path or the raised
exception, plus the ordered trace of outside calls made. -/
structure VResult where
  result : Except PyExn String
  trace : List Eff

/-- Stream listing, selection and transfer: ask the handle for its progressive
mp4 candidates (this call can itself raise), order them by resolution
ascending, take the last, call its download method. -/
def videoTransfer (yt : YTHandle) (save_path : String) :
    Except String String × List Eff :=
  match yt.progMp4 with
  | Except.error e => (Except.error e, [])
  | Except.ok streams =>
    match pyLast (orderByResolution streams) with
    | Except.error e => (Except.error e, [])
    | Except.ok s =>
      match s.dl save_path with
      | Except.error e => (Except.error e, [Eff.downloadCall save_path])
      | Except.ok fn => (Except.ok fn, [Eff.downloadCall save_path])

/-- The body of the second try block of download_video: makedirs when the save
path is non-empty and does not exist yet, then listing, selection and
transfer. -/
def videoPhase2 (env : VideoEnv) (yt : YTHandle) (save_path : String) :
    Except String String × List Eff :=
  if save_path ≠ "" ∧ env.pathExists save_path = false then
    match env.makedirs save_path with
    | Except.error e => (Except.error e, [Eff.makedirsCall save_path])
    | Except.ok _ =>
      let r := videoTransfer yt save_path
      (r.1, Eff.makedirsCall save_path :: r.2)
  else videoTransfer yt save_path

/-- Shallow embedding of download_video(link, save_path) from
src/video_download.py.  A missing link argument (Python None) is modelled as
none; the guard treats both None and the empty string as falsy.  The first try
block wraps a raised message with the connection prefix, the second with the
download prefix. -/
def download_video (env : VideoEnv) (link : Option String) (save_path : String) :
    VResult :=
  match link with
  | none => ⟨Except.error (PyExn.valueError "Link cannot be empty"), []⟩
  | some l =>
    if l = "" then ⟨Except.error (PyExn.valueError "Link cannot be empty"), []⟩
    else
      match env.resolve l with
      | Except.error e =>
        ⟨Except.error (PyExn.exception ("Connection Error: " ++ e)), [Eff.resolveCall l]⟩
      | Except.ok yt =>
        match videoPhase2 env yt save_path with
        | (Except.error e, t) =>
          ⟨Except.error (PyExn.exception ("Error: Couldn\x27t download the video - " ++ e)),
            Eff.resolveCall l :: t⟩
        | (Except.ok fn, t) => ⟨Except.ok fn, Eff.resolveCall l :: t⟩

/-- A pafy audio stream handle: the behaviour of its download method, which
saves into the current working directory and returns the file name, or
raises. -/
structure AStream where
  dl : Except String String

/-- A pafy video handle: the behaviour of getbestaudio. -/
structure AHandle where
  getbestaudio : Except String AStream

/-- Behaviour of the outside world as seen by download_audio: pafy.new. -/
structure AudioEnv where
  pafyNew : String → Except String AHandle

/-- Observable calls download_audio makes into the outside world. -/
inductive AEff where
  | pafyNewCall (url : String)
  | getbestaudioCall
  | audioDownloadCall
deriving DecidableEq, Repr

/-- Shallow embedding of download_audio(url) from src/audio_download.py.  The
single try block wraps any raised message with the audio failure prefix; the
validation ValueError is raised before the try block and is not wrapped. -/
def download_audio (env : AudioEnv) (url : Option String) :
    Except PyExn String × List AEff :=
  match url with
  | none => (Except.error (PyExn.valueError "URL cannot be empty"), [])
  | some u =>
    if u = "" then (Except.error (PyExn.valueError "URL cannot be empty"), [])
    else
      match env.pafyNew u with
      | Except.error e =>
        (Except.error (PyExn.exception ("Failed to download audio: " ++ e)),
          [AEff.pafyNewCall u])
      | Except.ok video =>
        match video.getbestaudio with
        | Except.error e =>
          (Except.error (PyExn.exception ("Failed to download audio: " ++ e)),
            [AEff.pafyNewCall u, AEff.getbestaudioCall])
        | Except.ok best =>
          match best.dl with
          | Except.error e =>
            (Except.error (PyExn.exception ("Failed to download audio: " ++ e)),
              [AEff.pafyNewCall u, AEff.getbestaudioCall, AEff.audioDownloadCall])
          | Except.ok fn =>
            (Except.ok fn,
              [AEff.pafyNewCall u, AEff.getbestaudioCall, AEff.audioDownloadCall])

/-- Shallow embedding of the module top level of src/video-download.py, with
the LINK and SAVE_PATH constants as parameters; the returned list is the lines
printed.  The first try block binds yt only when the constructor succeeds; when
it failed, the second try block reads the never-assigned name yt, raising a
NameError that its bare except clause swallows like any other failure. -/
def legacyScript (env : VideoEnv) (LINK SAVE_PATH : String) : List String :=
  let step1 : Option YTHandle × List String :=
    match env.resolve LINK with
    | Except.ok h => (some h, [])
    | Except.error _ => (none, ["Connection Error"])
  let block2 : Except String String :=
    match step1.1 with
    | none => Except.error "name \x27yt\x27 is not defined"
    | some yt =>
      match yt.progMp4 with
      | Except.error e => Except.error e
      | Except.ok streams =>
        match pyLast (orderByResolution streams) with
        | Except.error e => Except.error e
        | Except.ok s => s.dl SAVE_PATH
  match block2 with
  | Except.ok _ => step1.2 ++ ["Video downloaded"]
  | Except.error _ => step1.2 ++ ["Error: Couldn\x27t download the video"]

/-
Helper lemmas shared by the claim theorems.
-/

/-- Wrapping of a raised message by an except clause that re-raises with a
prefix, as both try blocks of download_video do on their caught failures. -/
def wrapErr (pre : String) (r : Except String String) : Except PyExn String :=
  match r with
  | Except.ok v => Except.ok v
  | Except.error e => Except.error (PyExn.exception (pre ++ e))

/-- Unfolding of download_video once validation passed and the constructor
succeeded: the outcome is the second try block wrapped with the download
prefix, and the trace is the constructor call followed by that block's
calls. -/
theorem download_video_resolved (env : VideoEnv) (l sp : String) (hl : l ≠ "")
    (yt : YTHandle) (hs : env.resolve l = Except.ok yt) :
    download_video env (some l) sp =
      ⟨wrapErr "Error: Couldn\x27t download the video - " (videoPhase2 env yt sp).1,
        Eff.resolveCall l :: (videoPhase2 env yt sp).2⟩ := by
  rcases h2 : videoPhase2 env yt sp with ⟨r, t⟩
  cases r <;> simp [download_video, hl, hs, h2, wrapErr]

/-- When makedirs succeeds (or is skipped) the second try block reduces to
selection and transfer. -/
theorem videoPhase2_fst (env : VideoEnv) (yt : YTHandle) (sp : String)
    (hmk : env.makedirs sp = Except.ok ()) :
    (videoPhase2 env yt sp).1 = (videoTransfer yt sp).1 := by
  unfold videoPhase2
  split
  · rw [hmk]
  · rfl

/-- When the listing yields candidates and the selection yields a stream, the
transfer outcome is exactly that stream's download result. -/
theorem videoTransfer_fst (yt : YTHandle) (sp : String) (streams : List VStream)
    (s : VStream) (hfil : yt.progMp4 = Except.ok streams)
    (hsel : pyLast (orderByResolution streams) = Except.ok s) :
    (videoTransfer yt sp).1 = s.dl sp := by
  unfold videoTransfer
  rw [hfil]
  cases h : s.dl sp <;> simp [hsel, h]

/-- When the listing raises, the transfer outcome is that raised message. -/
theorem videoTransfer_fst_filterError (yt : YTHandle) (sp e : String)
    (hfil : yt.progMp4 = Except.error e) :
    (videoTransfer yt sp).1 = Except.error e := by
  unfold videoTransfer
  rw [hfil]

/-- The last element of a list option-indexed is a member. -/
theorem mem_of_getLast? : ∀ {l : List VStream} {s : VStream},
    l.getLast? = some s → s ∈ l := by
  intro l
  induction l with
  | nil => intro s hs; simp at hs
  | cons a rest ih =>
    intro s hs
    rcases rest with _ | ⟨b, r2⟩
    · simp at hs
      simp [hs]
    · rw [List.getLast?_cons_cons] at hs
      exact List.mem_cons_of_mem a (ih hs)

/-- In a list sorted by resolution, the last element bounds every member. -/
theorem vle_getLast_of_sorted : ∀ (l : List VStream), l.Sorted vle →
    ∀ s, l.getLast? = some s → ∀ t ∈ l, t.resolution ≤ s.resolution := by
  intro l
  induction l with
  | nil => intro _ s hs; simp at hs
  | cons a rest ih =>
    intro hsort s hs t ht
    rcases rest with _ | ⟨b, r2⟩
    · simp at hs ht
      rw [ht, hs]
    · rw [List.getLast?_cons_cons] at hs
      rw [List.sorted_cons] at hsort
      rcases List.mem_cons.mp ht with rfl | hmem
      · exact hsort.1 s (mem_of_getLast? hs)
      · exact ih hsort.2 s hs t hmem

/-- Selection on a non-empty candidate list succeeds and yields a member of
maximal resolution. -/
theorem select_highest (streams : List VStream) (hne : streams ≠ []) :
    ∃ s, pyLast (orderByResolution streams) = Except.ok s ∧ s ∈ streams ∧
      ∀ t ∈ streams, t.resolution ≤ s.resolution := by
  have hsorted : (orderByResolution streams).Sorted vle :=
    List.sorted_insertionSort vle streams
  have hne2 : orderByResolution streams ≠ [] := by
    intro h
    apply hne
    have := List.perm_insertionSort vle streams
    rw [orderByResolution] at h
    rw [h] at this
    exact this.symm.eq_nil
  obtain ⟨s, hs⟩ : ∃ s, (orderByResolution streams).getLast? = some s := by
    cases h : (orderByResolution streams).getLast? with
    | none => exact absurd (List.getLast?_eq_none_iff.mp h) hne2
    | some s => exact ⟨s, rfl⟩
  refine ⟨s, by simp [pyLast, hs], ?_, ?_⟩
  · have hmem : s ∈ orderByResolution streams := mem_of_getLast? hs
    rw [orderByResolution] at hmem
    exact (List.mem_insertionSort vle).mp hmem
  · intro t ht
    have ht2 : t ∈ orderByResolution streams := by
      rw [orderByResolution]
      exact (List.mem_insertionSort vle).mpr ht
    exact vle_getLast_of_sorted _ hsorted s hs t ht2

/-- The listing and transfer step only ever calls the download method, with
the given destination. -/
theorem videoTransfer_trace_sub (yt : YTHandle) (sp : String) :
    ∀ ef ∈ (videoTransfer yt sp).2, ef = Eff.downloadCall sp := by
  intro ef hef
  unfold videoTransfer at hef
  split at hef
  · simp at hef
  · split at hef
    · simp at hef
    · split at hef <;> simpa using hef

/-- The second try block only ever calls makedirs and the download method,
both on the given save path. -/
theorem videoPhase2_trace_sub (env : VideoEnv) (yt : YTHandle) (sp : String) :
    ∀ ef ∈ (videoPhase2 env yt sp).2,
      ef = Eff.makedirsCall sp ∨ ef = Eff.downloadCall sp := by
  intro ef hef
  unfold videoPhase2 at hef
  split at hef
  · cases h : env.makedirs sp with
    | error e => rw [h] at hef; simp at hef; exact Or.inl hef
    | ok u =>
      rw [h] at hef
      simp at hef
      rcases hef with rfl | hef
      · exact Or.inl rfl
      · exact Or.inr (videoTransfer_trace_sub yt sp ef hef)
  · exact Or.inr (videoTransfer_trace_sub yt sp ef hef)

/-- When the save path is non-empty and absent, the second try block starts by
calling makedirs on it. -/
theorem videoPhase2_makedirs_mem (env : VideoEnv) (yt : YTHandle) (sp : String)
    (hsp : sp ≠ "") (hex : env.pathExists sp = false) :
    Eff.makedirsCall sp ∈ (videoPhase2 env yt sp).2 := by
  unfold videoPhase2
  rw [if_pos ⟨hsp, hex⟩]
  cases h : env.makedirs sp <;> simp

/-- When the save path is empty or already present, the second try block never
calls makedirs. -/
theorem videoPhase2_no_makedirs (env : VideoEnv) (yt : YTHandle) (sp : String)
    (h : ¬(sp ≠ "" ∧ env.pathExists sp = false)) :
    ∀ p, Eff.makedirsCall p ∉ (videoPhase2 env yt sp).2 := by
  intro p hp
  unfold videoPhase2 at hp
  rw [if_neg h] at hp
  have := videoTransfer_trace_sub yt sp _ hp
  simp at this

/-- When the constructor raises, the trace is just that one call. -/
theorem download_video_trace_resolveError (env : VideoEnv) (l sp e : String)
    (hl : l ≠ "") (h : env.resolve l = Except.error e) :
    (download_video env (some l) sp).trace = [Eff.resolveCall l] := by
  simp [download_video, hl, h]

/-
Concrete fixtures used by the witness theorems.
-/

/-- A 360p progressive stream whose download always succeeds. -/
def s360 : VStream := ⟨360, fun _ => Except.ok "v360.mp4"⟩

/-- A 480p progressive stream whose download always succeeds. -/
def s480 : VStream := ⟨480, fun _ => Except.ok "v480.mp4"⟩

/-- A 720p progressive stream whose download always succeeds. -/
def s720 : VStream := ⟨720, fun _ => Except.ok "v720.mp4"⟩

/-- Handle offering the three standard resolutions. -/
def yt3 : YTHandle := ⟨Except.ok [s360, s480, s720]⟩

/-- Handle whose stream listing returns zero progressive mp4 candidates. -/
def ytEmpty : YTHandle := ⟨Except.ok []⟩

/-- Handle whose stream listing itself raises. -/
def ytFilterFail : YTHandle := ⟨Except.error "Download failed"⟩

/-- Environment whose resolver offers the three standard resolutions, with no
existing paths and a makedirs that succeeds. -/
def envOk3 : VideoEnv :=
  ⟨fun _ => Except.ok yt3, fun _ => false, fun _ => Except.ok ()⟩

/-- Environment whose resolver yields zero progressive mp4 candidates. -/
def envNoStreams : VideoEnv :=
  ⟨fun _ => Except.ok ytEmpty, fun _ => true, fun _ => Except.ok ()⟩

/-- Environment whose resolver constructor raises. -/
def envConnFail : VideoEnv :=
  ⟨fun _ => Except.error "boom", fun _ => true, fun _ => Except.ok ()⟩

/-- Environment whose stream listing raises in the second try block. -/
def envFilterFail : VideoEnv :=
  ⟨fun _ => Except.ok ytFilterFail, fun _ => true, fun _ => Except.ok ()⟩

/-- Environment whose makedirs raises. -/
def envMkdirFail : VideoEnv :=
  ⟨fun _ => Except.ok yt3, fun _ => false,
    fun _ => Except.error "Permission denied"⟩

/-- Audio environment that resolves and downloads successfully. -/
def audioEnvOk : AudioEnv :=
  ⟨fun _ => Except.ok ⟨Except.ok ⟨Except.ok "test_audio.mp3"⟩⟩⟩

/-- Audio environment whose resolver constructor raises. -/
def audioEnvNewFail : AudioEnv := ⟨fun _ => Except.error "Connection failed"⟩

/-- Audio environment whose best-audio selection raises. -/
def audioEnvBestFail : AudioEnv := ⟨fun _ => Except.ok ⟨Except.error "no audio"⟩⟩

/-- Audio environment whose stream download raises. -/
def audioEnvDlFail : AudioEnv :=
  ⟨fun _ => Except.ok ⟨Except.ok ⟨Except.error "disk full"⟩⟩⟩

/-- Projection of download_video_resolved to the outcome. -/
theorem download_video_resolved_result (env : VideoEnv) (l sp : String) (hl : l ≠ "")
    (yt : YTHandle) (hs : env.resolve l = Except.ok yt) :
    (download_video env (some l) sp).result =
      wrapErr "Error: Couldn\x27t download the video - " (videoPhase2 env yt sp).1 := by
  rw [download_video_resolved env l sp hl yt hs]

/-- Projection of download_video_resolved to the trace. -/
theorem download_video_resolved_trace (env : VideoEnv) (l sp : String) (hl : l ≠ "")
    (yt : YTHandle) (hs : env.resolve l = Except.ok yt) :
    (download_video env (some l) sp).trace =
      Eff.resolveCall l :: (videoPhase2 env yt sp).2 := by
  rw [download_video_resolved env l sp hl yt hs]

/-
The claims.
-/

/-- C1: when the resolver returns zero progressive mp4 candidates, selecting
the last of the empty ordered sequence raises an IndexError that the second
try block catches and re-raises with the download failure prefix; the raw
indexing fault never propagates. -/
theorem C1_empty_candidates_wrapped (env : VideoEnv) (l sp : String) (hl : l ≠ "")
    (yt : YTHandle) (hres : env.resolve l = Except.ok yt)
    (hfil : yt.progMp4 = Except.ok []) (hmk : env.makedirs sp = Except.ok ()) :
    (download_video env (some l) sp).result =
      Except.error (PyExn.exception
        ("Error: Couldn\x27t download the video - " ++ "list index out of range")) := by
  rw [download_video_resolved_result env l sp hl yt hres,
    videoPhase2_fst env yt sp hmk]
  unfold videoTransfer
  rw [hfil]
  rfl

/-- Witness for C1 at a concrete environment with no candidates. -/
theorem C1_witness :
    (download_video envNoStreams (some "u") "").result =
      Except.error (PyExn.exception
        ("Error: Couldn\x27t download the video - " ++ "list index out of range")) :=
  C1_empty_candidates_wrapped envNoStreams "u" "" (by decide) ytEmpty rfl rfl rfl

/-- C2: on a non-empty candidate list the selection orders by resolution
ascending and takes the last element, a candidate of maximal resolution, and
download_video fetches exactly that stream. -/
theorem C2_selects_highest_resolution (env : VideoEnv) (l sp : String) (hl : l ≠ "")
    (yt : YTHandle) (hs : env.resolve l = Except.ok yt)
    (streams : List VStream) (hfil : yt.progMp4 = Except.ok streams)
    (hne : streams ≠ []) (hmk : env.makedirs sp = Except.ok ()) :
    ∃ s, pyLast (orderByResolution streams) = Except.ok s ∧ s ∈ streams ∧
      (∀ t ∈ streams, t.resolution ≤ s.resolution) ∧
      (download_video env (some l) sp).result =
        wrapErr "Error: Couldn\x27t download the video - " (s.dl sp) := by
  obtain ⟨s, hsel, hmem, hmax⟩ := select_highest streams hne
  refine ⟨s, hsel, hmem, hmax, ?_⟩
  rw [download_video_resolved_result env l sp hl yt hs,
    videoPhase2_fst env yt sp hmk, videoTransfer_fst yt sp streams s hfil hsel]

/-- Witness for C2 at the ordered resolutions 360, 480, 720: the selected
stream is the 720 one. -/
theorem C2_witness :
    pyLast (orderByResolution [s360, s480, s720]) = Except.ok s720 ∧
    (∃ s, pyLast (orderByResolution [s360, s480, s720]) = Except.ok s ∧
      s ∈ [s360, s480, s720] ∧
      (∀ t ∈ [s360, s480, s720], t.resolution ≤ s.resolution) ∧
      (download_video envOk3 (some "u") "").result =
        wrapErr "Error: Couldn\x27t download the video - " (s.dl "")) :=
  ⟨rfl, C2_selects_highest_resolution envOk3 "u" "" (by decide)
    yt3 rfl [s360, s480, s720] rfl (by simp) rfl⟩

/-- C3: an empty or absent input makes both entry points raise the validation
ValueError with no outside call at all: the resolver is never invoked and no
directory is created. -/
theorem C3_validation_before_io (aenv : AudioEnv) (venv : VideoEnv)
    (url : Option String) (sp : String) (h : url = none ∨ url = some "") :
    download_audio aenv url =
      (Except.error (PyExn.valueError "URL cannot be empty"), []) ∧
    download_video venv url sp =
      ⟨Except.error (PyExn.valueError "Link cannot be empty"), []⟩ := by
  rcases h with rfl | rfl <;> exact ⟨rfl, rfl⟩

/-- Witness for C3 at the absent input. -/
theorem C3_witness :
    download_audio audioEnvOk none =
      (Except.error (PyExn.valueError "URL cannot be empty"), []) ∧
    download_video envOk3 none "d" =
      ⟨Except.error (PyExn.valueError "Link cannot be empty"), []⟩ :=
  C3_validation_before_io audioEnvOk envOk3 none "d" (Or.inl rfl)

/-- C4: the two try blocks of download_video wrap their caught failures with
distinct prefixes: a constructor failure gets the connection prefix, and any
failure in the second block, directory creation, stream listing, selection and
transfer alike, gets the download prefix; in particular a failure raised by
the stream listing call itself is wrapped with the download prefix. -/
theorem C4_two_failure_phases (env : VideoEnv) (l sp : String) (hl : l ≠ "") :
    (∀ e, env.resolve l = Except.error e →
      (download_video env (some l) sp).result =
        Except.error (PyExn.exception ("Connection Error: " ++ e))) ∧
    (∀ yt e, env.resolve l = Except.ok yt →
      (videoPhase2 env yt sp).1 = Except.error e →
      (download_video env (some l) sp).result =
        Except.error (PyExn.exception
          ("Error: Couldn\x27t download the video - " ++ e))) ∧
    (∀ yt e, env.resolve l = Except.ok yt → env.makedirs sp = Except.ok () →
      yt.progMp4 = Except.error e →
      (download_video env (some l) sp).result =
        Except.error (PyExn.exception
          ("Error: Couldn\x27t download the video - " ++ e))) := by
  refine ⟨?_, ?_, ?_⟩
  · intro e he
    simp [download_video, hl, he]
  · intro yt e hs hp
    rw [download_video_resolved_result env l sp hl yt hs, hp]
    rfl
  · intro yt e hs hmk hfil
    rw [download_video_resolved_result env l sp hl yt hs,
      videoPhase2_fst env yt sp hmk, videoTransfer_fst_filterError yt sp e hfil]
    rfl

/-- Witness for C4 at one environment failing in each phase, the second phase
exercised both through the stream listing call raising and through the
indexing fault on an empty candidate list. -/
theorem C4_witness :
    (download_video envConnFail (some "u") "").result =
      Except.error (PyExn.exception ("Connection Error: " ++ "boom")) ∧
    (download_video envNoStreams (some "u") "").result =
      Except.error (PyExn.exception
        ("Error: Couldn\x27t download the video - " ++ "list index out of range")) ∧
    (download_video envFilterFail (some "u") "").result =
      Except.error (PyExn.exception
        ("Error: Couldn\x27t download the video - " ++ "Download failed")) :=
  ⟨(C4_two_failure_phases envConnFail "u" "" (by decide)).1 "boom" rfl,
   (C4_two_failure_phases envNoStreams "u" "" (by decide)).2.1 ytEmpty
     "list index out of range" rfl rfl,
   (C4_two_failure_phases envFilterFail "u" "" (by decide)).2.2 ytFilterFail
     "Download failed" rfl rfl rfl⟩

/-- C5: any failure inside the single try block of download_audio, whether in
the resolver constructor, the best-audio selection or the transfer, is caught
and re-raised as one generic exception wrapping the cause with the same audio
failure prefix, with no distinction between the causes. -/
theorem C5_audio_wraps_all_failures (env : AudioEnv) (u : String) (hu : u ≠ "") :
    (∀ e, env.pafyNew u = Except.error e →
      (download_audio env (some u)).1 =
        Except.error (PyExn.exception ("Failed to download audio: " ++ e))) ∧
    (∀ video e, env.pafyNew u = Except.ok video →
      video.getbestaudio = Except.error e →
      (download_audio env (some u)).1 =
        Except.error (PyExn.exception ("Failed to download audio: " ++ e))) ∧
    (∀ video best e, env.pafyNew u = Except.ok video →
      video.getbestaudio = Except.ok best → best.dl = Except.error e →
      (download_audio env (some u)).1 =
        Except.error (PyExn.exception ("Failed to download audio: " ++ e))) := by
  refine ⟨?_, ?_, ?_⟩ <;> intros <;> simp [download_audio, hu, *]

/-- Witness for C5 at an environment failing in each of the three stages. -/
theorem C5_witness :
    (download_audio audioEnvNewFail (some "u")).1 =
      Except.error (PyExn.exception
        ("Failed to download audio: " ++ "Connection failed")) ∧
    (download_audio audioEnvBestFail (some "u")).1 =
      Except.error (PyExn.exception ("Failed to download audio: " ++ "no audio")) ∧
    (download_audio audioEnvDlFail (some "u")).1 =
      Except.error (PyExn.exception ("Failed to download audio: " ++ "disk full")) :=
  ⟨(C5_audio_wraps_all_failures audioEnvNewFail "u" (by decide)).1
      "Connection failed" rfl,
   (C5_audio_wraps_all_failures audioEnvBestFail "u" (by decide)).2.1
      ⟨Except.error "no audio"⟩ "no audio" rfl rfl,
   (C5_audio_wraps_all_failures audioEnvDlFail "u" (by decide)).2.2
      ⟨Except.ok ⟨Except.error "disk full"⟩⟩ ⟨Except.error "disk full"⟩
      "disk full" rfl rfl rfl⟩

/-- C6: when the resolver succeeds, download_audio returns exactly the path
value reported by the download step of the best-audio stream, unchanged. -/
theorem C6_audio_returns_reported_path (env : AudioEnv) (u : String) (hu : u ≠ "")
    (video : AHandle) (best : AStream) (fn : String)
    (h1 : env.pafyNew u = Except.ok video)
    (h2 : video.getbestaudio = Except.ok best)
    (h3 : best.dl = Except.ok fn) :
    (download_audio env (some u)).1 = Except.ok fn := by
  simp [download_audio, hu, h1, h2, h3]

/-- Witness for C6: the download step reports test_audio.mp3 and that exact
string is returned. -/
theorem C6_witness : (download_audio audioEnvOk (some "u")).1 =
    Except.ok "test_audio.mp3" :=
  C6_audio_returns_reported_path audioEnvOk "u" (by decide)
    ⟨Except.ok ⟨Except.ok "test_audio.mp3"⟩⟩ ⟨Except.ok "test_audio.mp3"⟩
    "test_audio.mp3" rfl rfl rfl

/-- C7: with a valid link and an empty save path, download_video performs no
directory creation, invokes the transfer with the empty-string destination,
and returns the reported path unchanged; the whole trace is the constructor
call followed by that one transfer call. -/
theorem C7_empty_save_path (env : VideoEnv) (l : String) (hl : l ≠ "")
    (yt : YTHandle) (streams : List VStream) (s : VStream) (fn : String)
    (h1 : env.resolve l = Except.ok yt)
    (hfil : yt.progMp4 = Except.ok streams)
    (h2 : pyLast (orderByResolution streams) = Except.ok s)
    (h3 : s.dl "" = Except.ok fn) :
    download_video env (some l) "" =
      ⟨Except.ok fn, [Eff.resolveCall l, Eff.downloadCall ""]⟩ := by
  rw [download_video_resolved env l "" hl yt h1]
  have hp : videoPhase2 env yt "" = videoTransfer yt "" := by
    unfold videoPhase2
    rw [if_neg]
    intro hc
    exact hc.1 rfl
  rw [hp]
  unfold videoTransfer
  rw [hfil]
  simp [h2, h3, wrapErr]

/-- Witness for C7 at a concrete resolving environment. -/
theorem C7_witness :
    download_video envOk3 (some "u") "" =
      ⟨Except.ok "v720.mp4", [Eff.resolveCall "u", Eff.downloadCall ""]⟩ :=
  C7_empty_save_path envOk3 "u" (by decide) yt3 [s360, s480, s720] s720
    "v720.mp4" rfl rfl rfl rfl

/-- C8: download_video calls makedirs exactly when the save path is non-empty
and does not exist yet, always on the save path itself, and the only outside
calls it ever makes are the constructor, that makedirs, and the transfer on
the save path. -/
theorem C8_makedirs_iff (env : VideoEnv) (l sp : String) (hl : l ≠ "") :
    (∀ p, Eff.makedirsCall p ∈ (download_video env (some l) sp).trace →
        p = sp ∧ sp ≠ "" ∧ env.pathExists sp = false) ∧
    (∀ yt, env.resolve l = Except.ok yt → sp ≠ "" →
        env.pathExists sp = false →
        Eff.makedirsCall sp ∈ (download_video env (some l) sp).trace) ∧
    (∀ ef ∈ (download_video env (some l) sp).trace,
        ef = Eff.resolveCall l ∨ ef = Eff.makedirsCall sp ∨
          ef = Eff.downloadCall sp) := by
  refine ⟨?_, ?_, ?_⟩
  · intro p hp
    cases hres : env.resolve l with
    | error e =>
      rw [download_video_trace_resolveError env l sp e hl hres] at hp
      simp at hp
    | ok yt =>
      rw [download_video_resolved_trace env l sp hl yt hres] at hp
      rcases List.mem_cons.mp hp with heq | hmem
      · exact absurd heq (by simp)
      · by_cases hc : sp ≠ "" ∧ env.pathExists sp = false
        · rcases videoPhase2_trace_sub env yt sp _ hmem with h | h
          · simp at h
            exact ⟨h, hc.1, hc.2⟩
          · simp at h
        · exact absurd hmem (videoPhase2_no_makedirs env yt sp hc p)
  · intro yt hres hsp hex
    rw [download_video_resolved_trace env l sp hl yt hres]
    exact List.mem_cons_of_mem _ (videoPhase2_makedirs_mem env yt sp hsp hex)
  · intro ef hef
    cases hres : env.resolve l with
    | error e =>
      rw [download_video_trace_resolveError env l sp e hl hres] at hef
      simp at hef
      exact Or.inl hef
    | ok yt =>
      rw [download_video_resolved_trace env l sp hl yt hres] at hef
      rcases List.mem_cons.mp hef with heq | hmem
      · exact Or.inl heq
      · exact Or.inr (videoPhase2_trace_sub env yt sp ef hmem)

/-- Witness for C8 at a non-empty absent save path: makedirs is called on it,
and the call satisfies the stated condition. -/
theorem C8_witness :
    Eff.makedirsCall "d" ∈ (download_video envOk3 (some "u") "d").trace ∧
    (Eff.makedirsCall "d" ∈ (download_video envOk3 (some "u") "d").trace →
      "d" = "d" ∧ "d" ≠ "" ∧ envOk3.pathExists "d" = false) :=
  ⟨(C8_makedirs_iff envOk3 "u" "d" (by decide)).2.1 yt3
      rfl (by decide) rfl,
   fun h => (C8_makedirs_iff envOk3 "u" "d" (by decide)).1 "d" h⟩

/-- C9: a makedirs failure happens inside the second try block, so it is
re-raised with the download failure prefix, not the connection prefix. -/
theorem C9_makedirs_failure_download_phase (env : VideoEnv) (l sp : String)
    (hl : l ≠ "") (yt : YTHandle) (e : String)
    (h1 : env.resolve l = Except.ok yt) (hsp : sp ≠ "")
    (hex : env.pathExists sp = false) (hmk : env.makedirs sp = Except.error e) :
    (download_video env (some l) sp).result =
      Except.error (PyExn.exception
        ("Error: Couldn\x27t download the video - " ++ e)) := by
  rw [download_video_resolved_result env l sp hl yt h1]
  have hp : (videoPhase2 env yt sp).1 = Except.error e := by
    unfold videoPhase2
    rw [if_pos ⟨hsp, hex⟩, hmk]
  rw [hp]
  rfl

/-- Witness for C9 at an environment whose makedirs raises. -/
theorem C9_witness :
    (download_video envMkdirFail (some "u") "d").result =
      Except.error (PyExn.exception
        ("Error: Couldn\x27t download the video - " ++ "Permission denied")) :=
  C9_makedirs_failure_download_phase envMkdirFail "u" "d" (by decide)
    yt3 "Permission denied" rfl (by decide) rfl rfl

/-- C10: when the constructor raises, the legacy script prints Connection
Error, still runs the download block where the never-assigned handle raises a
NameError swallowed by the bare except, prints the download error line too,
and terminates normally. -/
theorem C10_legacy_prints_both (env : VideoEnv) (LINK SAVE_PATH e : String)
    (h : env.resolve LINK = Except.error e) :
    legacyScript env LINK SAVE_PATH =
      ["Connection Error", "Error: Couldn\x27t download the video"] := by
  simp [legacyScript, h]

/-- Witness for C10 at the empty link of the script constants. -/
theorem C10_witness :
    legacyScript envConnFail "" "" =
      ["Connection Error", "Error: Couldn\x27t download the video"] :=
  C10_legacy_prints_both envConnFail "" "" "boom" rfl

end DownloadFromYoutube
